import Mathlib

/- Verification of the gitsec-scanner core (src/backend/scanner.py).

   The scanner walks a Python abstract syntax tree (produced by the external
   parser `ast.parse`) and emits a list of findings.  We embed the fragment of
   the Python AST that the scanner's detectors inspect — plain assignments,
   annotated assignments, expression statements, `pass`, `try`/`except`,
   function bodies, and the expressions reachable from them — together with the
   visitor `SecurityVisitor` and the entry point `scan_code`, translated
   line-by-line from the source.  The parser itself is an external collaborator
   (spec section 4.1): `scan_code` here consumes its outcome, a `ParseResult`,
   which is either a parsed module body or a parse failure carrying a
   best-effort line number and message. -/

namespace GitSec

/-- Constant values carried by `ast.Constant` nodes, as far as the detectors
discriminate them: the secret detector asks whether a constant is a `str`,
the empty-handler detector whether it is the `Ellipsis` object. -/
inductive PyConst where
  | str (s : String)
  | intLit (n : Int)
  | boolLit (b : Bool)
  | noneLit
  | ellipsis
deriving Repr, DecidableEq

mutual
/-- Python expression nodes reachable by the scanner's detectors:
`ast.Name`, `ast.Attribute`, `ast.Constant` and `ast.Call`.  Every node
carries its 1-based source line number `lineno`, assigned by the parser. -/
inductive PyExpr where
  | name (id : String) (lineno : Nat)
  | attr (value : PyExpr) (attrName : String) (lineno : Nat)
  | const (value : PyConst) (lineno : Nat)
  | call (func : PyExpr) (args : PyExprList) (lineno : Nat)

/-- A `list` of expression nodes (`targets` of an assignment, `args` of a
call), as its own inductive so that the visitor is plain mutual structural
recursion. -/
inductive PyExprList where
  | nil
  | cons (head : PyExpr) (tail : PyExprList)
end

mutual
/-- Python statement nodes reachable by the scanner's detectors:
`ast.Assign`, `ast.AnnAssign`, `ast.Expr`, `ast.Pass`, `ast.Try` and
`ast.FunctionDef` (body only; argument defaults and decorators are not
modelled). -/
inductive PyStmt where
  | assign (targets : PyExprList) (value : PyExpr) (lineno : Nat)
  | annAssign (target : PyExpr) (annot : PyExpr) (value : Option PyExpr) (lineno : Nat)
  | exprStmt (value : PyExpr) (lineno : Nat)
  | pass (lineno : Nat)
  | tryStmt (body : PyStmtList) (handlers : PyHandlerList)
      (orelse : PyStmtList) (finalbody : PyStmtList) (lineno : Nat)
  | functionDef (fname : String) (body : PyStmtList) (lineno : Nat)

/-- A `list` of statement nodes (a module body, a suite). -/
inductive PyStmtList where
  | nil
  | cons (head : PyStmt) (tail : PyStmtList)

/-- An `ast.ExceptHandler` clause: optional exception type expression and a
body suite. -/
inductive PyExceptHandler where
  | handler (type : Option PyExpr) (body : PyStmtList) (lineno : Nat)

/-- A `list` of exception-handler clauses (`handlers` of a `try`). -/
inductive PyHandlerList where
  | nil
  | cons (head : PyExceptHandler) (tail : PyHandlerList)
end

/-- One finding, exactly the dict built by `SecurityVisitor.add_issue` and by
the error branches of `scan_code`: filename, 1-based line (0 when unknown),
issue text, severity string and the trimmed source line. -/
structure Finding where
  filename : String
  line : Nat
  issue : String
  severity : String
  code : String
deriving Repr, DecidableEq

/-- Does the character list `hay` start with `needle`? Helper for Python's
substring test. -/
def charListStartsWith : List Char → List Char → Bool
  | [], _ => true
  | _ :: _, [] => false
  | a :: as, b :: bs => a == b && charListStartsWith as bs

/-- Does `hay` contain `needle` as a contiguous sublist? Helper for Python's
substring test. -/
def charListHasSub (needle : List Char) : List Char → Bool
  | [] => charListStartsWith needle []
  | b :: bs => charListStartsWith needle (b :: bs) || charListHasSub needle bs

/-- Python's `needle in hay` on strings: contiguous-substring containment. -/
def strContainsSub (hay needle : String) : Bool :=
  charListHasSub needle.toList hay.toList

/-- Python's `str.lower()` (ASCII-faithful; identifiers here are ASCII). -/
def pyLower (s : String) : String :=
  ⟨s.toList.map Char.toLower⟩

/-- Whitespace stripped by Python's `str.strip()` (`.strip()` with no
argument), restricted to the ASCII whitespace characters. -/
def isPySpace (c : Char) : Bool :=
  c == ' ' || c == '\t' || c == '\n' || c == '\x0d' || c == '\x0b' || c == '\x0c'

/-- Python's `str.strip()`: drop leading and trailing whitespace. -/
def pyStrip (s : String) : String :=
  ⟨((s.toList.dropWhile isPySpace).reverse.dropWhile isPySpace).reverse⟩

/-- CPython list subscription `xs[i]`: negative indices count from the end,
out-of-range indices raise `IndexError`, modelled as `none`. -/
def pyListGet (xs : List String) (i : Int) : Option String :=
  let j : Int := if i < 0 then (xs.length : Int) + i else i
  if 0 ≤ j then xs.get? j.toNat else none

/-- Python's `str.splitlines()` on the line boundaries `\n`, `\r\n` and `\r`:
`""` gives `[]`, a trailing line break does not create a final empty line. -/
def splitlinesChars (acc : List Char) : List Char → List String
  | [] => if acc.isEmpty then [] else [⟨acc.reverse⟩]
  | '\x0d' :: '\n' :: rest => ⟨acc.reverse⟩ :: splitlinesChars [] rest
  | '\n' :: rest => ⟨acc.reverse⟩ :: splitlinesChars [] rest
  | '\x0d' :: rest => ⟨acc.reverse⟩ :: splitlinesChars [] rest
  | c :: rest => splitlinesChars (c :: acc) rest

/-- Python's `code.splitlines()` as used by `scan_code`. -/
def pySplitlines (s : String) : List String :=
  splitlinesChars [] s.toList

/-- The visitor's per-instance construction data: `SecurityVisitor.__init__`
stores `filename` and `code_lines`; `self.issues` starts empty and is threaded
explicitly through the visit functions below. -/
structure VisitorCtx where
  filename : String
  code_lines : List String
deriving Repr, DecidableEq

/-- `SecurityVisitor.add_issue`: appends one finding with the node's line
number and the stripped source line at `code_lines[line_num - 1]`; an
`IndexError` there yields the `"(Code not available)"` placeholder. -/
def add_issue (ctx : VisitorCtx) (issues : List Finding)
    (line_num : Nat) (issue_text severity : String) : List Finding :=
  let code_snippet :=
    match pyListGet ctx.code_lines ((line_num : Int) - 1) with
    | some l => pyStrip l
    | none => "(Code not available)"
  issues ++ [{ filename := ctx.filename, line := line_num, issue := issue_text,
               severity := severity, code := code_snippet }]

/-- The body of the `for target in node.targets` loop of `visit_Assign`: if
this target is an `ast.Name` whose lowercased identifier contains one of the
suspicious substrings, and the assigned value is a string `ast.Constant`,
report a hardcoded secret. -/
def secretCheckOne (ctx : VisitorCtx) (value : PyExpr) (lineno : Nat)
    (issues : List Finding) (target : PyExpr) : List Finding :=
  match target with
  | .name id _ =>
    let var_name := pyLower id
    if (["key", "password", "secret", "token"]).any
        (fun secret => strContainsSub var_name secret) then
      match value with
      | .const (.str _) _ =>
        add_issue ctx issues lineno
          ("Possible Hardcoded Secret: '" ++ id ++ "'") "High"
      | _ => issues
    else issues
  | _ => issues

/-- The `for target in node.targets` loop of `visit_Assign`, run over every
target of the assignment. -/
def secretCheckTargets (ctx : VisitorCtx) (value : PyExpr) (lineno : Nat)
    (issues : List Finding) : PyExprList → List Finding
  | .nil => issues
  | .cons target rest =>
    secretCheckTargets ctx value lineno
      (secretCheckOne ctx value lineno issues target) rest

/-- The detection part of `visit_Call`: a bare-name call to `eval`/`exec` is
High, to `input` Medium; an attribute call `os.system`/`os.popen` or
`subprocess.run`/`subprocess.call`/`subprocess.Popen` on a bare module name is
High. -/
def callCheck (ctx : VisitorCtx) (issues : List Finding)
    (func : PyExpr) (lineno : Nat) : List Finding :=
  match func with
  | .name func_name _ =>
    if func_name == "eval" || func_name == "exec" then
      add_issue ctx issues lineno
        ("Use of Dangerous Function (" ++ func_name ++ ")") "High"
    else if func_name == "input" then
      add_issue ctx issues lineno "Use of input() (Validate this data!)" "Medium"
    else issues
  | .attr fval method _ =>
    match fval with
    | .name module _ =>
      if module == "os" && (method == "system" || method == "popen") then
        add_issue ctx issues lineno
          ("Potential OS Command Injection: " ++ module ++ "." ++ method) "High"
      else if module == "subprocess" &&
          (method == "run" || method == "call" || method == "Popen") then
        add_issue ctx issues lineno
          ("Potential Subprocess Injection: " ++ module ++ "." ++ method) "High"
      else issues
    | _ => issues
  | _ => issues

/-- The detection part of `visit_ExceptHandler`: a handler body of exactly one
statement that is `pass` or an `Ellipsis` expression statement is Low. -/
def handlerCheck (ctx : VisitorCtx) (issues : List Finding)
    (body : PyStmtList) (lineno : Nat) : List Finding :=
  match body with
  | .cons statement .nil =>
    match statement with
    | .pass _ =>
      add_issue ctx issues lineno "Broad Exception Handler (empty except)" "Low"
    | .exprStmt (.const .ellipsis _) _ =>
      add_issue ctx issues lineno "Broad Exception Handler (empty except)" "Low"
    | _ => issues
  | _ => issues

mutual
/-- `NodeVisitor.visit` on an expression node: `visit_Call` fires its checks
and then `generic_visit` recurses into `func` and `args`; the other
expression forms have no visitor and `generic_visit` recurses into their
child expressions. -/
def visitExpr (ctx : VisitorCtx) (issues : List Finding) : PyExpr → List Finding
  | .name _ _ => issues
  | .attr value _ _ => visitExpr ctx issues value
  | .const _ _ => issues
  | .call func args lineno =>
    visitExprList ctx (visitExpr ctx (callCheck ctx issues func lineno) func) args

/-- Visit each expression of a list in order (as `generic_visit` does for a
list-valued AST field). -/
def visitExprList (ctx : VisitorCtx) (issues : List Finding) :
    PyExprList → List Finding
  | .nil => issues
  | .cons e rest => visitExprList ctx (visitExpr ctx issues e) rest
end

mutual
/-- `NodeVisitor.visit` on a statement node: `visit_Assign` runs the secret
check over the targets and then `generic_visit` recurses into targets and
value; `AnnAssign`, `Expr`, `Pass`, `Try` and `FunctionDef` have no visitor,
so `generic_visit` recurses into their child nodes in field order. -/
def visitStmt (ctx : VisitorCtx) (issues : List Finding) : PyStmt → List Finding
  | .assign targets value lineno =>
    visitExpr ctx
      (visitExprList ctx (secretCheckTargets ctx value lineno issues targets) targets)
      value
  | .annAssign target annot value _ =>
    let issues := visitExpr ctx (visitExpr ctx issues target) annot
    match value with
    | some v => visitExpr ctx issues v
    | none => issues
  | .exprStmt value _ => visitExpr ctx issues value
  | .pass _ => issues
  | .tryStmt body handlers orelse finalbody _ =>
    visitStmtList ctx
      (visitStmtList ctx (visitHandlerList ctx (visitStmtList ctx issues body) handlers) orelse)
      finalbody
  | .functionDef _ body _ => visitStmtList ctx issues body

/-- Visit each statement of a suite in order. -/
def visitStmtList (ctx : VisitorCtx) (issues : List Finding) :
    PyStmtList → List Finding
  | .nil => issues
  | .cons s rest => visitStmtList ctx (visitStmt ctx issues s) rest

/-- `visit_ExceptHandler`: the empty-handler check, then `generic_visit` into
the optional type expression and the body suite. -/
def visitHandler (ctx : VisitorCtx) (issues : List Finding) :
    PyExceptHandler → List Finding
  | .handler type body lineno =>
    let issues := handlerCheck ctx issues body lineno
    let issues :=
      match type with
      | some t => visitExpr ctx issues t
      | none => issues
    visitStmtList ctx issues body

/-- Visit each handler of a `try` statement in order. -/
def visitHandlerList (ctx : VisitorCtx) (issues : List Finding) :
    PyHandlerList → List Finding
  | .nil => issues
  | .cons h rest => visitHandlerList ctx (visitHandler ctx issues h) rest
end

/-- Outcome of the external parser `ast.parse` on the source text: a module
body, a `SyntaxError` with its optional `lineno` and message `msg`, or any
other exception with its string rendering. -/
inductive ParseResult where
  | parsed (body : PyStmtList)
  | parseFailure (lineno : Option Nat) (msg : String)
  | otherFailure (msg : String)

/-- `scan_code(code, filename)`: a parse failure returns the single
Error-severity finding of the corresponding `except` branch (with
`e.lineno or 0` as the line); otherwise the source is split into lines, a
fresh visitor is built over them with an empty issue list, and the module
body is visited. -/
def scan_code (parse : ParseResult) (code : String) (filename : String) :
    List Finding :=
  match parse with
  | .parseFailure lineno msg =>
    [{ filename := filename, line := lineno.getD 0,
       issue := "Syntax Error: " ++ msg, severity := "Error", code := "N/A" }]
  | .otherFailure msg =>
    [{ filename := filename, line := 0,
       issue := "Failed to parse: " ++ msg, severity := "Error", code := "N/A" }]
  | .parsed body =>
    let code_lines := pySplitlines code
    visitStmtList { filename := filename, code_lines := code_lines } [] body

mutual
/-- All line numbers carried by the nodes of an expression, in the order the
visitor encounters them. -/
def exprLinenos : PyExpr → List Nat
  | .name _ lineno => [lineno]
  | .attr value _ lineno => lineno :: exprLinenos value
  | .const _ lineno => [lineno]
  | .call func args lineno => lineno :: (exprLinenos func ++ exprListLinenos args)

/-- All line numbers carried by the nodes of an expression list. -/
def exprListLinenos : PyExprList → List Nat
  | .nil => []
  | .cons e rest => exprLinenos e ++ exprListLinenos rest
end

mutual
/-- All line numbers carried by the nodes of a statement. -/
def stmtLinenos : PyStmt → List Nat
  | .assign targets value lineno =>
    lineno :: (exprListLinenos targets ++ exprLinenos value)
  | .annAssign target annot value lineno =>
    lineno :: (exprLinenos target ++ exprLinenos annot ++
      (match value with | some v => exprLinenos v | none => []))
  | .exprStmt value lineno => lineno :: exprLinenos value
  | .pass lineno => [lineno]
  | .tryStmt body handlers orelse finalbody lineno =>
    lineno :: (stmtListLinenos body ++ handlerListLinenos handlers ++
      stmtListLinenos orelse ++ stmtListLinenos finalbody)
  | .functionDef _ body lineno => lineno :: stmtListLinenos body

/-- All line numbers carried by the nodes of a statement list. -/
def stmtListLinenos : PyStmtList → List Nat
  | .nil => []
  | .cons s rest => stmtLinenos s ++ stmtListLinenos rest

/-- All line numbers carried by the nodes of an exception handler. -/
def handlerLinenos : PyExceptHandler → List Nat
  | .handler type body lineno =>
    lineno :: ((match type with | some t => exprLinenos t | none => []) ++
      stmtListLinenos body)

/-- All line numbers carried by the nodes of a handler list. -/
def handlerListLinenos : PyHandlerList → List Nat
  | .nil => []
  | .cons h rest => handlerLinenos h ++ handlerListLinenos rest
end

/-- Source text of the spec's secret-detection test. -/
def srcSecret : String := "api_key = \"abc123\""

/-- Parser output for `srcSecret`: a one-target assignment of a string
constant to the name `api_key`, all on line 1. -/
def astSecret : ParseResult :=
  .parsed (.cons (.assign (.cons (.name "api_key" 1) .nil)
    (.const (.str "abc123") 1) 1) .nil)

/-- The single finding `scan_code` produces for `srcSecret`. -/
def secretFinding : Finding :=
  { filename := "app.py", line := 1,
    issue := "Possible Hardcoded Secret: 'api_key'", severity := "High",
    code := "api_key = \"abc123\"" }

/-- Source text of the spec's safe-assignment test: the assigned value is a
call, not a string literal. -/
def srcSafeCall : String := "token = some_function_call()"

/-- Parser output for `srcSafeCall`. -/
def astSafeCall : ParseResult :=
  .parsed (.cons (.assign (.cons (.name "token" 1) .nil)
    (.call (.name "some_function_call" 1) .nil 1) 1) .nil)

/-- Source text of the spec's `eval` test. -/
def srcEval : String := "eval(user_input)"

/-- Parser output for `srcEval`: an expression statement calling the bare
name `eval`. -/
def astEval : ParseResult :=
  .parsed (.cons (.exprStmt (.call (.name "eval" 1)
    (.cons (.name "user_input" 1) .nil) 1) 1) .nil)

/-- Source text for the `exec` variant of the dangerous-call test. -/
def srcExec : String := "exec(payload)"

/-- Parser output for `srcExec`. -/
def astExec : ParseResult :=
  .parsed (.cons (.exprStmt (.call (.name "exec" 1)
    (.cons (.name "payload" 1) .nil) 1) 1) .nil)

/-- Source text of the spec's `input()` test. -/
def srcInput : String := "input()"

/-- Parser output for `srcInput`. -/
def astInput : ParseResult :=
  .parsed (.cons (.exprStmt (.call (.name "input" 1) .nil 1) 1) .nil)

/-- Source text of the spec's OS-injection test. -/
def srcOsSystem : String := "os.system(\"rm -rf /\")"

/-- Parser output for `srcOsSystem`: a call whose callee is the attribute
`system` of the bare name `os`. -/
def astOsSystem : ParseResult :=
  .parsed (.cons (.exprStmt (.call (.attr (.name "os" 1) "system" 1)
    (.cons (.const (.str "rm -rf /") 1) .nil) 1) 1) .nil)

/-- Source text of the spec's subprocess test with `Popen`. -/
def srcSubPopen : String := "subprocess.Popen(cmd)"

/-- Parser output for `srcSubPopen`. -/
def astSubPopen : ParseResult :=
  .parsed (.cons (.exprStmt (.call (.attr (.name "subprocess" 1) "Popen" 1)
    (.cons (.name "cmd" 1) .nil) 1) 1) .nil)

/-- Source text of the subprocess test with `run`. -/
def srcSubRun : String := "subprocess.run(cmd)"

/-- Parser output for `srcSubRun`. -/
def astSubRun : ParseResult :=
  .parsed (.cons (.exprStmt (.call (.attr (.name "subprocess" 1) "run" 1)
    (.cons (.name "cmd" 1) .nil) 1) 1) .nil)

/-- Source text of the subprocess test with `call`. -/
def srcSubCall : String := "subprocess.call(cmd)"

/-- Parser output for `srcSubCall`. -/
def astSubCall : ParseResult :=
  .parsed (.cons (.exprStmt (.call (.attr (.name "subprocess" 1) "call" 1)
    (.cons (.name "cmd" 1) .nil) 1) 1) .nil)

/-- Source text of the spec's empty-handler test: a `try` whose handler body
is solely `pass`. -/
def srcHandlerPass : String := "try:\n    risky()\nexcept:\n    pass"

/-- Parser output for `srcHandlerPass`: `try` on line 1, body call on line 2,
bare `except` clause on line 3 with a single `pass` on line 4. -/
def astHandlerPass : ParseResult :=
  .parsed (.cons (.tryStmt
    (.cons (.exprStmt (.call (.name "risky" 2) .nil 2) 2) .nil)
    (.cons (.handler none (.cons (.pass 4) .nil) 3) .nil)
    .nil .nil 1) .nil)

/-- Source text of the empty-handler test with an `Ellipsis` body. -/
def srcHandlerEllipsis : String := "try:\n    risky()\nexcept:\n    ..."

/-- Parser output for `srcHandlerEllipsis`: the handler body is a single
expression statement whose value is the `Ellipsis` constant. -/
def astHandlerEllipsis : ParseResult :=
  .parsed (.cons (.tryStmt
    (.cons (.exprStmt (.call (.name "risky" 2) .nil 2) 2) .nil)
    (.cons (.handler none (.cons (.exprStmt (.const .ellipsis 4) 4) .nil) 3) .nil)
    .nil .nil 1) .nil)

/-- Source text of the two-statement handler test: the handler logs before
no-op-ing, so its body has two statements. -/
def srcHandlerLog : String := "try:\n    risky()\nexcept:\n    log(e)\n    pass"

/-- Parser output for `srcHandlerLog`. -/
def astHandlerLog : ParseResult :=
  .parsed (.cons (.tryStmt
    (.cons (.exprStmt (.call (.name "risky" 2) .nil 2) 2) .nil)
    (.cons (.handler none
      (.cons (.exprStmt (.call (.name "log" 4) (.cons (.name "e" 4) .nil) 4) 4)
        (.cons (.pass 5) .nil)) 3) .nil)
    .nil .nil 1) .nil)

/-- Source text of a chained (multi-target) assignment with two secret-like
targets. -/
def srcChained : String := "api_key = auth_token = \"x\""

/-- Parser output for `srcChained`: one `ast.Assign` with two `ast.Name`
targets and a string-constant value. -/
def astChained : ParseResult :=
  .parsed (.cons (.assign
    (.cons (.name "api_key" 1) (.cons (.name "auth_token" 1) .nil))
    (.const (.str "x") 1) 1) .nil)

/-- Source text of the spec's ordering test: a secret assignment on line 2
and a dangerous call on line 5. -/
def srcOrder : String := "x = 1\napi_key = \"abc123\"\n\n\neval(data)"

/-- Parser output for `srcOrder`: three statements with line numbers 1, 2
and 5. -/
def astOrder : ParseResult :=
  .parsed (.cons (.assign (.cons (.name "x" 1) .nil) (.const (.intLit 1) 1) 1)
    (.cons (.assign (.cons (.name "api_key" 2) .nil) (.const (.str "abc123") 2) 2)
      (.cons (.exprStmt (.call (.name "eval" 5)
        (.cons (.name "data" 5) .nil) 5) 5) .nil)))

/-- Source text on which CPython's parser reports an error line past the end
of the source: `ast.parse` on `"if x:\r\n"` raises `SyntaxError` with
`lineno = 2` (the missing indented block is reported at the position after
the last line), while `"if x:\r\n".splitlines()` has exactly one line. -/
def srcBadLineno : String := "if x:\r\n"

/-- Parser outcome for `srcBadLineno`: the `SyntaxError` carries `lineno = 2`
and the message CPython reports for the missing indented block. -/
def astBadLineno : ParseResult :=
  .parseFailure (some 2)
    "expected an indented block after 'if' statement on line 1"

/-- Source text of an annotated assignment of a string literal to a
secret-like identifier. -/
def srcAnn : String := "api_key: str = \"abc123\""

/-- Parser output for `srcAnn`: an `ast.AnnAssign` node (not `ast.Assign`)
whose target is the name `api_key`, annotated with the name `str`, with a
string-constant value. -/
def astAnn : ParseResult :=
  .parsed (.cons (.annAssign (.name "api_key" 1) (.name "str" 1)
    (some (.const (.str "abc123") 1)) 1) .nil)

theorem add_issue_append (ctx : VisitorCtx) (issues : List Finding)
    (line_num : Nat) (issue_text severity : String) :
    add_issue ctx issues line_num issue_text severity
      = issues ++ add_issue ctx [] line_num issue_text severity := by
  simp [add_issue]

theorem add_issue_mem {ctx : VisitorCtx} {issues : List Finding}
    {line_num : Nat} {issue_text severity : String} {f : Finding}
    (h : f ∈ add_issue ctx issues line_num issue_text severity) :
    f ∈ issues ∨ (f.severity = severity ∧ f.line = line_num) := by
  simp only [add_issue, List.mem_append, List.mem_singleton] at h
  rcases h with h | h
  · exact Or.inl h
  · subst h
    exact Or.inr ⟨rfl, rfl⟩

theorem callCheck_append (ctx : VisitorCtx) (issues : List Finding)
    (func : PyExpr) (lineno : Nat) :
    callCheck ctx issues func lineno = issues ++ callCheck ctx [] func lineno := by
  cases func with
  | name id l =>
    by_cases h1 : (id == "eval" || id == "exec") = true
    · simp [callCheck, h1, add_issue]
    · by_cases h2 : (id == "input") = true
      · simp [callCheck, h1, h2, add_issue]
      · simp [callCheck, h1, h2]
  | attr value method l =>
    cases value with
    | name module l2 =>
      by_cases h1 : (module == "os" && (method == "system" || method == "popen")) = true
      · simp [callCheck, h1, add_issue]
      · by_cases h2 : (module == "subprocess"
            && (method == "run" || method == "call" || method == "Popen")) = true
        · simp [callCheck, h1, h2, add_issue]
        · simp [callCheck, h1, h2]
    | attr v2 a2 l2 => simp [callCheck]
    | const c2 l2 => simp [callCheck]
    | call f2 a2 l2 => simp [callCheck]
  | const c l => simp [callCheck]
  | call f2 a2 l => simp [callCheck]

theorem callCheck_mem {ctx : VisitorCtx} {issues : List Finding}
    {func : PyExpr} {lineno : Nat} {f : Finding}
    (h : f ∈ callCheck ctx issues func lineno) :
    f ∈ issues ∨ ((f.severity = "High" ∨ f.severity = "Medium") ∧ f.line = lineno) := by
  cases func with
  | name id l =>
    simp only [callCheck] at h
    split at h
    · rcases add_issue_mem h with h' | h'
      · exact Or.inl h'
      · exact Or.inr ⟨Or.inl h'.1, h'.2⟩
    · split at h
      · rcases add_issue_mem h with h' | h'
        · exact Or.inl h'
        · exact Or.inr ⟨Or.inr h'.1, h'.2⟩
      · exact Or.inl h
  | attr value method l =>
    cases value with
    | name module l2 =>
      simp only [callCheck] at h
      split at h
      · rcases add_issue_mem h with h' | h'
        · exact Or.inl h'
        · exact Or.inr ⟨Or.inl h'.1, h'.2⟩
      · split at h
        · rcases add_issue_mem h with h' | h'
          · exact Or.inl h'
          · exact Or.inr ⟨Or.inl h'.1, h'.2⟩
        · exact Or.inl h
    | attr v2 a2 l2 => simp only [callCheck] at h; exact Or.inl h
    | const c2 l2 => simp only [callCheck] at h; exact Or.inl h
    | call f2 a2 l2 => simp only [callCheck] at h; exact Or.inl h
  | const c l => simp only [callCheck] at h; exact Or.inl h
  | call f2 a2 l => simp only [callCheck] at h; exact Or.inl h

theorem secretCheckOne_append (ctx : VisitorCtx) (value : PyExpr) (lineno : Nat)
    (issues : List Finding) (target : PyExpr) :
    secretCheckOne ctx value lineno issues target
      = issues ++ secretCheckOne ctx value lineno [] target := by
  cases target with
  | name id l =>
    by_cases hc : ((["key", "password", "secret", "token"]).any
        (fun secret => strContainsSub (pyLower id) secret)) = true
    · cases value with
      | const c lc =>
        cases c <;> simp [secretCheckOne, hc, add_issue]
      | name i2 l2 => simp [secretCheckOne, hc]
      | attr v2 a2 l2 => simp [secretCheckOne, hc]
      | call f2 a2 l2 => simp [secretCheckOne, hc]
    · simp [secretCheckOne, hc]
  | attr v2 a2 l2 => simp [secretCheckOne]
  | const c2 l2 => simp [secretCheckOne]
  | call f2 a2 l2 => simp [secretCheckOne]

theorem secretCheckOne_mem {ctx : VisitorCtx} {value : PyExpr} {lineno : Nat}
    {issues : List Finding} {target : PyExpr} {f : Finding}
    (h : f ∈ secretCheckOne ctx value lineno issues target) :
    f ∈ issues ∨ (f.severity = "High" ∧ f.line = lineno) := by
  cases target with
  | name id l =>
    simp only [secretCheckOne] at h
    split at h
    · split at h
      · exact add_issue_mem h
      · exact Or.inl h
    · exact Or.inl h
  | attr v2 a2 l2 => simp only [secretCheckOne] at h; exact Or.inl h
  | const c2 l2 => simp only [secretCheckOne] at h; exact Or.inl h
  | call f2 a2 l2 => simp only [secretCheckOne] at h; exact Or.inl h

theorem secretCheckTargets_append (ctx : VisitorCtx) (value : PyExpr) (lineno : Nat) :
    ∀ (targets : PyExprList) (issues : List Finding),
      secretCheckTargets ctx value lineno issues targets
        = issues ++ secretCheckTargets ctx value lineno [] targets
  | .nil, issues => by simp [secretCheckTargets]
  | .cons target rest, issues => by
    simp only [secretCheckTargets]
    rw [secretCheckTargets_append ctx value lineno rest
          (secretCheckOne ctx value lineno issues target),
        secretCheckTargets_append ctx value lineno rest
          (secretCheckOne ctx value lineno [] target),
        secretCheckOne_append ctx value lineno issues target]
    simp [List.append_assoc]

theorem secretCheckTargets_mem {ctx : VisitorCtx} {value : PyExpr} {lineno : Nat} :
    ∀ {targets : PyExprList} {issues : List Finding} {f : Finding},
      f ∈ secretCheckTargets ctx value lineno issues targets →
      f ∈ issues ∨ (f.severity = "High" ∧ f.line = lineno)
  | .nil, issues, f => by
    intro h
    simp only [secretCheckTargets] at h
    exact Or.inl h
  | .cons target rest, issues, f => by
    intro h
    simp only [secretCheckTargets] at h
    rcases secretCheckTargets_mem h with h' | h'
    · exact secretCheckOne_mem h'
    · exact Or.inr h'

theorem handlerCheck_append (ctx : VisitorCtx) (issues : List Finding)
    (body : PyStmtList) (lineno : Nat) :
    handlerCheck ctx issues body lineno = issues ++ handlerCheck ctx [] body lineno := by
  cases body with
  | nil => simp [handlerCheck]
  | cons statement rest =>
    cases rest with
    | cons s2 r2 => simp [handlerCheck]
    | nil =>
      cases statement with
      | pass l => simp [handlerCheck, add_issue]
      | exprStmt v l =>
        cases v with
        | const c lc => cases c <;> simp [handlerCheck, add_issue]
        | name i2 l2 => simp [handlerCheck]
        | attr v2 a2 l2 => simp [handlerCheck]
        | call f2 a2 l2 => simp [handlerCheck]
      | assign t2 v2 l2 => simp [handlerCheck]
      | annAssign t2 an2 v2 l2 => simp [handlerCheck]
      | tryStmt b2 h2 o2 fb2 l2 => simp [handlerCheck]
      | functionDef n2 b2 l2 => simp [handlerCheck]

theorem handlerCheck_mem {ctx : VisitorCtx} {issues : List Finding}
    {body : PyStmtList} {lineno : Nat} {f : Finding}
    (h : f ∈ handlerCheck ctx issues body lineno) :
    f ∈ issues ∨ (f.severity = "Low" ∧ f.line = lineno) := by
  unfold handlerCheck at h
  split at h
  · split at h
    · exact add_issue_mem h
    · exact add_issue_mem h
    · exact Or.inl h
  · exact Or.inl h

mutual
theorem visitExpr_append (ctx : VisitorCtx) :
    ∀ (e : PyExpr) (issues : List Finding),
      visitExpr ctx issues e = issues ++ visitExpr ctx [] e
  | .name id l, issues => by simp [visitExpr]
  | .attr value a l, issues => by
    simp only [visitExpr]
    exact visitExpr_append ctx value issues
  | .const c l, issues => by simp [visitExpr]
  | .call func args lineno, issues => by
    simp only [visitExpr]
    rw [visitExprList_append ctx args (visitExpr ctx (callCheck ctx issues func lineno) func),
        visitExprList_append ctx args (visitExpr ctx (callCheck ctx [] func lineno) func),
        visitExpr_append ctx func (callCheck ctx issues func lineno),
        visitExpr_append ctx func (callCheck ctx [] func lineno),
        callCheck_append ctx issues func lineno]
    simp [List.append_assoc]

theorem visitExprList_append (ctx : VisitorCtx) :
    ∀ (es : PyExprList) (issues : List Finding),
      visitExprList ctx issues es = issues ++ visitExprList ctx [] es
  | .nil, issues => by simp [visitExprList]
  | .cons e rest, issues => by
    simp only [visitExprList]
    rw [visitExprList_append ctx rest (visitExpr ctx issues e),
        visitExprList_append ctx rest (visitExpr ctx [] e),
        visitExpr_append ctx e issues]
    simp [List.append_assoc]
end

mutual
theorem visitExpr_mem (ctx : VisitorCtx) :
    ∀ (e : PyExpr) (issues : List Finding) (f : Finding),
      f ∈ visitExpr ctx issues e →
      f ∈ issues ∨ (f.severity ∈ (["High", "Medium", "Low"] : List String)
        ∧ f.line ∈ exprLinenos e)
  | .name id l, issues, f => by
    intro h
    simp only [visitExpr] at h
    exact Or.inl h
  | .attr value a l, issues, f => by
    intro h
    simp only [visitExpr] at h
    rcases visitExpr_mem ctx value issues f h with h' | ⟨hs, hl⟩
    · exact Or.inl h'
    · exact Or.inr ⟨hs, by simpa [exprLinenos] using Or.inr hl⟩
  | .const c l, issues, f => by
    intro h
    simp only [visitExpr] at h
    exact Or.inl h
  | .call func args lineno, issues, f => by
    intro h
    simp only [visitExpr] at h
    rcases visitExprList_mem ctx args _ f h with h1 | ⟨hs, hl⟩
    · rcases visitExpr_mem ctx func _ f h1 with h2 | ⟨hs, hl⟩
      · rcases callCheck_mem h2 with h3 | ⟨hs, hl⟩
        · exact Or.inl h3
        · refine Or.inr ⟨?_, by simp [exprLinenos, hl]⟩
          rcases hs with h' | h' <;> simp [h']
      · exact Or.inr ⟨hs, by simp [exprLinenos, List.mem_append, hl]⟩
    · exact Or.inr ⟨hs, by simp [exprLinenos, List.mem_append, hl]⟩

theorem visitExprList_mem (ctx : VisitorCtx) :
    ∀ (es : PyExprList) (issues : List Finding) (f : Finding),
      f ∈ visitExprList ctx issues es →
      f ∈ issues ∨ (f.severity ∈ (["High", "Medium", "Low"] : List String)
        ∧ f.line ∈ exprListLinenos es)
  | .nil, issues, f => by
    intro h
    simp only [visitExprList] at h
    exact Or.inl h
  | .cons e rest, issues, f => by
    intro h
    simp only [visitExprList] at h
    rcases visitExprList_mem ctx rest _ f h with h1 | ⟨hs, hl⟩
    · rcases visitExpr_mem ctx e issues f h1 with h2 | ⟨hs, hl⟩
      · exact Or.inl h2
      · exact Or.inr ⟨hs, by simp [exprListLinenos, List.mem_append, hl]⟩
    · exact Or.inr ⟨hs, by simp [exprListLinenos, List.mem_append, hl]⟩
end

mutual
theorem visitStmt_append (ctx : VisitorCtx) :
    ∀ (s : PyStmt) (issues : List Finding),
      visitStmt ctx issues s = issues ++ visitStmt ctx [] s
  | .assign targets value lineno, issues => by
    simp only [visitStmt]
    rw [visitExpr_append ctx value
          (visitExprList ctx (secretCheckTargets ctx value lineno issues targets) targets),
        visitExpr_append ctx value
          (visitExprList ctx (secretCheckTargets ctx value lineno [] targets) targets),
        visitExprList_append ctx targets (secretCheckTargets ctx value lineno issues targets),
        visitExprList_append ctx targets (secretCheckTargets ctx value lineno [] targets),
        secretCheckTargets_append ctx value lineno targets issues]
    simp [List.append_assoc]
  | .annAssign target annot value lineno, issues => by
    cases value with
    | some v =>
      simp only [visitStmt]
      rw [visitExpr_append ctx v (visitExpr ctx (visitExpr ctx issues target) annot),
          visitExpr_append ctx v (visitExpr ctx (visitExpr ctx [] target) annot),
          visitExpr_append ctx annot (visitExpr ctx issues target),
          visitExpr_append ctx annot (visitExpr ctx [] target),
          visitExpr_append ctx target issues]
      simp [List.append_assoc]
    | none =>
      simp only [visitStmt]
      rw [visitExpr_append ctx annot (visitExpr ctx issues target),
          visitExpr_append ctx annot (visitExpr ctx [] target),
          visitExpr_append ctx target issues]
      simp [List.append_assoc]
  | .exprStmt value lineno, issues => by
    simp only [visitStmt]
    exact visitExpr_append ctx value issues
  | .pass lineno, issues => by simp [visitStmt]
  | .tryStmt body handlers orelse finalbody lineno, issues => by
    simp only [visitStmt]
    rw [visitStmtList_append ctx finalbody
          (visitStmtList ctx
            (visitHandlerList ctx (visitStmtList ctx issues body) handlers) orelse),
        visitStmtList_append ctx finalbody
          (visitStmtList ctx
            (visitHandlerList ctx (visitStmtList ctx [] body) handlers) orelse),
        visitStmtList_append ctx orelse
          (visitHandlerList ctx (visitStmtList ctx issues body) handlers),
        visitStmtList_append ctx orelse
          (visitHandlerList ctx (visitStmtList ctx [] body) handlers),
        visitHandlerList_append ctx handlers (visitStmtList ctx issues body),
        visitHandlerList_append ctx handlers (visitStmtList ctx [] body),
        visitStmtList_append ctx body issues]
    simp [List.append_assoc]
  | .functionDef fname body lineno, issues => by
    simp only [visitStmt]
    exact visitStmtList_append ctx body issues

theorem visitStmtList_append (ctx : VisitorCtx) :
    ∀ (ss : PyStmtList) (issues : List Finding),
      visitStmtList ctx issues ss = issues ++ visitStmtList ctx [] ss
  | .nil, issues => by simp [visitStmtList]
  | .cons s rest, issues => by
    simp only [visitStmtList]
    rw [visitStmtList_append ctx rest (visitStmt ctx issues s),
        visitStmtList_append ctx rest (visitStmt ctx [] s),
        visitStmt_append ctx s issues]
    simp [List.append_assoc]

theorem visitHandler_append (ctx : VisitorCtx) :
    ∀ (h : PyExceptHandler) (issues : List Finding),
      visitHandler ctx issues h = issues ++ visitHandler ctx [] h
  | .handler type body lineno, issues => by
    cases type with
    | some t =>
      simp only [visitHandler]
      rw [visitStmtList_append ctx body
            (visitExpr ctx (handlerCheck ctx issues body lineno) t),
          visitStmtList_append ctx body
            (visitExpr ctx (handlerCheck ctx [] body lineno) t),
          visitExpr_append ctx t (handlerCheck ctx issues body lineno),
          visitExpr_append ctx t (handlerCheck ctx [] body lineno),
          handlerCheck_append ctx issues body lineno]
      simp [List.append_assoc]
    | none =>
      simp only [visitHandler]
      rw [visitStmtList_append ctx body (handlerCheck ctx issues body lineno),
          visitStmtList_append ctx body (handlerCheck ctx [] body lineno),
          handlerCheck_append ctx issues body lineno]
      simp [List.append_assoc]

theorem visitHandlerList_append (ctx : VisitorCtx) :
    ∀ (hs : PyHandlerList) (issues : List Finding),
      visitHandlerList ctx issues hs = issues ++ visitHandlerList ctx [] hs
  | .nil, issues => by simp [visitHandlerList]
  | .cons h rest, issues => by
    simp only [visitHandlerList]
    rw [visitHandlerList_append ctx rest (visitHandler ctx issues h),
        visitHandlerList_append ctx rest (visitHandler ctx [] h),
        visitHandler_append ctx h issues]
    simp [List.append_assoc]
end

mutual
theorem visitStmt_mem (ctx : VisitorCtx) :
    ∀ (s : PyStmt) (issues : List Finding) (f : Finding),
      f ∈ visitStmt ctx issues s →
      f ∈ issues ∨ (f.severity ∈ (["High", "Medium", "Low"] : List String)
        ∧ f.line ∈ stmtLinenos s)
  | .assign targets value lineno, issues, f => by
    intro h
    simp only [visitStmt] at h
    rcases visitExpr_mem ctx value _ f h with h1 | ⟨hs, hl⟩
    · rcases visitExprList_mem ctx targets _ f h1 with h2 | ⟨hs, hl⟩
      · rcases secretCheckTargets_mem h2 with h3 | ⟨hs, hl⟩
        · exact Or.inl h3
        · exact Or.inr ⟨by simp [hs], by simp [stmtLinenos, hl]⟩
      · exact Or.inr ⟨hs, by simp [stmtLinenos, List.mem_append, hl]⟩
    · exact Or.inr ⟨hs, by simp [stmtLinenos, List.mem_append, hl]⟩
  | .annAssign target annot value lineno, issues, f => by
    intro h
    cases value with
    | some v =>
      simp only [visitStmt] at h
      rcases visitExpr_mem ctx v _ f h with h1 | ⟨hs, hl⟩
      · rcases visitExpr_mem ctx annot _ f h1 with h2 | ⟨hs, hl⟩
        · rcases visitExpr_mem ctx target issues f h2 with h3 | ⟨hs, hl⟩
          · exact Or.inl h3
          · exact Or.inr ⟨hs, by simp [stmtLinenos, List.mem_append, hl]⟩
        · exact Or.inr ⟨hs, by simp [stmtLinenos, List.mem_append, hl]⟩
      · exact Or.inr ⟨hs, by simp [stmtLinenos, List.mem_append, hl]⟩
    | none =>
      simp only [visitStmt] at h
      rcases visitExpr_mem ctx annot _ f h with h1 | ⟨hs, hl⟩
      · rcases visitExpr_mem ctx target issues f h1 with h2 | ⟨hs, hl⟩
        · exact Or.inl h2
        · exact Or.inr ⟨hs, by simp [stmtLinenos, List.mem_append, hl]⟩
      · exact Or.inr ⟨hs, by simp [stmtLinenos, List.mem_append, hl]⟩
  | .exprStmt value lineno, issues, f => by
    intro h
    simp only [visitStmt] at h
    rcases visitExpr_mem ctx value issues f h with h1 | ⟨hs, hl⟩
    · exact Or.inl h1
    · exact Or.inr ⟨hs, by simp [stmtLinenos, hl]⟩
  | .pass lineno, issues, f => by
    intro h
    simp only [visitStmt] at h
    exact Or.inl h
  | .tryStmt body handlers orelse finalbody lineno, issues, f => by
    intro h
    simp only [visitStmt] at h
    rcases visitStmtList_mem ctx finalbody _ f h with h1 | ⟨hs, hl⟩
    · rcases visitStmtList_mem ctx orelse _ f h1 with h2 | ⟨hs, hl⟩
      · rcases visitHandlerList_mem ctx handlers _ f h2 with h3 | ⟨hs, hl⟩
        · rcases visitStmtList_mem ctx body issues f h3 with h4 | ⟨hs, hl⟩
          · exact Or.inl h4
          · exact Or.inr ⟨hs, by simp [stmtLinenos, List.mem_append, hl]⟩
        · exact Or.inr ⟨hs, by simp [stmtLinenos, List.mem_append, hl]⟩
      · exact Or.inr ⟨hs, by simp [stmtLinenos, List.mem_append, hl]⟩
    · exact Or.inr ⟨hs, by simp [stmtLinenos, List.mem_append, hl]⟩
  | .functionDef fname body lineno, issues, f => by
    intro h
    simp only [visitStmt] at h
    rcases visitStmtList_mem ctx body issues f h with h1 | ⟨hs, hl⟩
    · exact Or.inl h1
    · exact Or.inr ⟨hs, by simp [stmtLinenos, hl]⟩

theorem visitStmtList_mem (ctx : VisitorCtx) :
    ∀ (ss : PyStmtList) (issues : List Finding) (f : Finding),
      f ∈ visitStmtList ctx issues ss →
      f ∈ issues ∨ (f.severity ∈ (["High", "Medium", "Low"] : List String)
        ∧ f.line ∈ stmtListLinenos ss)
  | .nil, issues, f => by
    intro h
    simp only [visitStmtList] at h
    exact Or.inl h
  | .cons s rest, issues, f => by
    intro h
    simp only [visitStmtList] at h
    rcases visitStmtList_mem ctx rest _ f h with h1 | ⟨hs, hl⟩
    · rcases visitStmt_mem ctx s issues f h1 with h2 | ⟨hs, hl⟩
      · exact Or.inl h2
      · exact Or.inr ⟨hs, by simp [stmtListLinenos, List.mem_append, hl]⟩
    · exact Or.inr ⟨hs, by simp [stmtListLinenos, List.mem_append, hl]⟩

theorem visitHandler_mem (ctx : VisitorCtx) :
    ∀ (hd : PyExceptHandler) (issues : List Finding) (f : Finding),
      f ∈ visitHandler ctx issues hd →
      f ∈ issues ∨ (f.severity ∈ (["High", "Medium", "Low"] : List String)
        ∧ f.line ∈ handlerLinenos hd)
  | .handler type body lineno, issues, f => by
    intro h
    cases type with
    | some t =>
      simp only [visitHandler] at h
      rcases visitStmtList_mem ctx body _ f h with h1 | ⟨hs, hl⟩
      · rcases visitExpr_mem ctx t _ f h1 with h2 | ⟨hs, hl⟩
        · rcases handlerCheck_mem h2 with h3 | ⟨hs, hl⟩
          · exact Or.inl h3
          · exact Or.inr ⟨by simp [hs], by simp [handlerLinenos, hl]⟩
        · exact Or.inr ⟨hs, by simp [handlerLinenos, List.mem_append, hl]⟩
      · exact Or.inr ⟨hs, by simp [handlerLinenos, List.mem_append, hl]⟩
    | none =>
      simp only [visitHandler] at h
      rcases visitStmtList_mem ctx body _ f h with h1 | ⟨hs, hl⟩
      · rcases handlerCheck_mem h1 with h2 | ⟨hs, hl⟩
        · exact Or.inl h2
        · exact Or.inr ⟨by simp [hs], by simp [handlerLinenos, hl]⟩
      · exact Or.inr ⟨hs, by simp [handlerLinenos, List.mem_append, hl]⟩

theorem visitHandlerList_mem (ctx : VisitorCtx) :
    ∀ (hs : PyHandlerList) (issues : List Finding) (f : Finding),
      f ∈ visitHandlerList ctx issues hs →
      f ∈ issues ∨ (f.severity ∈ (["High", "Medium", "Low"] : List String)
        ∧ f.line ∈ handlerListLinenos hs)
  | .nil, issues, f => by
    intro h
    simp only [visitHandlerList] at h
    exact Or.inl h
  | .cons hd rest, issues, f => by
    intro h
    simp only [visitHandlerList] at h
    rcases visitHandlerList_mem ctx rest _ f h with h1 | ⟨hsev, hl⟩
    · rcases visitHandler_mem ctx hd issues f h1 with h2 | ⟨hsev, hl⟩
      · exact Or.inl h2
      · exact Or.inr ⟨hsev, by simp [handlerListLinenos, List.mem_append, hl]⟩
    · exact Or.inr ⟨hsev, by simp [handlerListLinenos, List.mem_append, hl]⟩
end

/-- C1: scanning `api_key = "abc123"` returns exactly one Finding, of
severity High, whose issue text contains the identifier `api_key`; scanning
`token = some_function_call()` (value a call, not a string literal) returns
no findings at all, in particular no secret-detector finding. -/
theorem claim1_secret_detection :
    scan_code astSecret srcSecret "app.py" = [secretFinding]
      ∧ secretFinding.severity = "High"
      ∧ strContainsSub secretFinding.issue "api_key" = true
      ∧ scan_code astSafeCall srcSafeCall "app.py" = [] := by
  refine ⟨by decide, rfl, by decide, by decide⟩

/-- C2: a bare-name call to `eval` (likewise `exec`) yields exactly one High
finding naming the primitive; a bare `input()` call yields exactly one Medium
finding; `os.system(...)` yields one High finding naming `os.system`; and
each of `subprocess.Popen`, `subprocess.run`, `subprocess.call` yields one
High finding naming the subprocess method. -/
theorem claim2_dangerous_calls :
    scan_code astEval srcEval "app.py"
      = [{ filename := "app.py", line := 1,
           issue := "Use of Dangerous Function (eval)", severity := "High",
           code := "eval(user_input)" }]
    ∧ strContainsSub "Use of Dangerous Function (eval)" "eval" = true
    ∧ scan_code astExec srcExec "app.py"
      = [{ filename := "app.py", line := 1,
           issue := "Use of Dangerous Function (exec)", severity := "High",
           code := "exec(payload)" }]
    ∧ scan_code astInput srcInput "app.py"
      = [{ filename := "app.py", line := 1,
           issue := "Use of input() (Validate this data!)", severity := "Medium",
           code := "input()" }]
    ∧ scan_code astOsSystem srcOsSystem "app.py"
      = [{ filename := "app.py", line := 1,
           issue := "Potential OS Command Injection: os.system", severity := "High",
           code := "os.system(\"rm -rf /\")" }]
    ∧ strContainsSub "Potential OS Command Injection: os.system" "os.system" = true
    ∧ scan_code astSubPopen srcSubPopen "app.py"
      = [{ filename := "app.py", line := 1,
           issue := "Potential Subprocess Injection: subprocess.Popen",
           severity := "High", code := "subprocess.Popen(cmd)" }]
    ∧ strContainsSub "Potential Subprocess Injection: subprocess.Popen"
        "subprocess.Popen" = true
    ∧ scan_code astSubRun srcSubRun "app.py"
      = [{ filename := "app.py", line := 1,
           issue := "Potential Subprocess Injection: subprocess.run",
           severity := "High", code := "subprocess.run(cmd)" }]
    ∧ scan_code astSubCall srcSubCall "app.py"
      = [{ filename := "app.py", line := 1,
           issue := "Potential Subprocess Injection: subprocess.call",
           severity := "High", code := "subprocess.call(cmd)" }] := by
  refine ⟨by decide, by decide, by decide, by decide, by decide, by decide,
    by decide, by decide, by decide, by decide⟩

/-- C3: an exception handler whose body is exactly the single statement
`pass`, or a single expression statement whose value is the `Ellipsis`
literal, yields exactly one Low finding (at the `except` line); a handler
whose body has two statements (a log call then `pass`) yields no findings
from any detector. -/
theorem claim3_empty_handler :
    scan_code astHandlerPass srcHandlerPass "app.py"
      = [{ filename := "app.py", line := 3,
           issue := "Broad Exception Handler (empty except)", severity := "Low",
           code := "except:" }]
    ∧ scan_code astHandlerEllipsis srcHandlerEllipsis "app.py"
      = [{ filename := "app.py", line := 3,
           issue := "Broad Exception Handler (empty except)", severity := "Low",
           code := "except:" }]
    ∧ scan_code astHandlerLog srcHandlerLog "app.py" = [] := by
  refine ⟨by decide, by decide, by decide⟩

/-- C4: for every parse failure, `scan_code` returns exactly the one
Error-severity finding of the corresponding `except` branch — the parser's
line number (0 when unknown) and message for a `SyntaxError`, line 0 and the
exception's text otherwise — and performs no traversal, so nothing else is
in the list. -/
theorem claim4_parse_failure_singleton :
    (∀ (lineno : Option Nat) (msg code fn : String),
      scan_code (ParseResult.parseFailure lineno msg) code fn
        = [{ filename := fn, line := lineno.getD 0,
             issue := "Syntax Error: " ++ msg, severity := "Error",
             code := "N/A" }])
    ∧ (∀ (msg code fn : String),
      scan_code (ParseResult.otherFailure msg) code fn
        = [{ filename := fn, line := 0,
             issue := "Failed to parse: " ++ msg, severity := "Error",
             code := "N/A" }]) :=
  ⟨fun _ _ _ _ => rfl, fun _ _ _ => rfl⟩

/-- C5: `scan_code` is a total function into finding lists, and every failure
mode is data in the returned list: unless the parse succeeded, the result is
exactly one finding of severity Error; and when the parse succeeded, the
traversal emits only High/Medium/Low findings, never an Error one. -/
theorem claim5_total_failures_as_findings (parse : ParseResult) (code fn : String) :
    ((∃ body, parse = ParseResult.parsed body)
      ∨ ((scan_code parse code fn).length = 1
          ∧ ∀ f ∈ scan_code parse code fn, f.severity = "Error"))
    ∧ (∀ body, parse = ParseResult.parsed body →
        ∀ f ∈ scan_code parse code fn, f.severity ≠ "Error") := by
  constructor
  · cases parse with
    | parsed body => exact Or.inl ⟨body, rfl⟩
    | parseFailure lineno msg =>
      refine Or.inr ⟨rfl, ?_⟩
      intro f hf
      simp only [scan_code, List.mem_singleton] at hf
      subst hf
      rfl
    | otherFailure msg =>
      refine Or.inr ⟨rfl, ?_⟩
      intro f hf
      simp only [scan_code, List.mem_singleton] at hf
      subst hf
      rfl
  · intro body hb f hf
    subst hb
    simp only [scan_code] at hf
    rcases visitStmtList_mem _ body [] f hf with h | ⟨hs, _⟩
    · exact absurd h (List.not_mem_nil f)
    · simp only [List.mem_cons, List.not_mem_nil, or_false] at hs
      rcases hs with h | h | h <;> simp [h]

/-- C5 witness: at the concrete parse failure `parseFailure (some 2) "invalid
syntax"`, the theorem yields the singleton-Error description of the result. -/
theorem claim5_total_failures_as_findings_witness :
    ((∃ body, ParseResult.parseFailure (some 2) "invalid syntax"
        = ParseResult.parsed body)
      ∨ ((scan_code (ParseResult.parseFailure (some 2) "invalid syntax")
            "if x\n  y" "w.py").length = 1
          ∧ ∀ f ∈ scan_code (ParseResult.parseFailure (some 2) "invalid syntax")
              "if x\n  y" "w.py", f.severity = "Error")) :=
  (claim5_total_failures_as_findings
    (ParseResult.parseFailure (some 2) "invalid syntax") "if x\n  y" "w.py").1

/-- C6: the line-validity invariant fails on the program.  On the source
`"if x:\r\n"` the parser reports `SyntaxError` at line 2 while the source has
exactly one line; `scan_code` copies `e.lineno` into the Error finding
without clamping it, so the scan returns a finding with `line = 2 > 1`, and
the claimed bound — every finding with positive `line` has `line` at most
the number of source lines — is false at this input. -/
theorem claim6_line_validity_violation :
    scan_code astBadLineno srcBadLineno "app.py"
      = [{ filename := "app.py", line := 2,
           issue :=
             "Syntax Error: expected an indented block after 'if' statement on line 1",
           severity := "Error", code := "N/A" }]
    ∧ (pySplitlines srcBadLineno).length = 1
    ∧ ¬ (∀ f ∈ scan_code astBadLineno srcBadLineno "app.py",
          0 < f.line → f.line ≤ (pySplitlines srcBadLineno).length) := by
  refine ⟨by decide, by decide, fun hAll => ?_⟩
  have h := hAll
    { filename := "app.py", line := 2,
      issue :=
        "Syntax Error: expected an indented block after 'if' statement on line 1",
      severity := "Error", code := "N/A" }
    (by decide) (by decide)
  exact absurd h (by decide)

/-- C7 counterexample: the chained assignment `api_key = auth_token = "x"` is
not single-target, yet the secret detector fires on it — once per secret-like
target — so the claim that a non-single-target assignment does not match the
trigger shape is false. -/
theorem claim7_counterexample :
    scan_code astChained srcChained "app.py"
      = [{ filename := "app.py", line := 1,
           issue := "Possible Hardcoded Secret: 'api_key'", severity := "High",
           code := "api_key = auth_token = \"x\"" },
         { filename := "app.py", line := 1,
           issue := "Possible Hardcoded Secret: 'auth_token'", severity := "High",
           code := "api_key = auth_token = \"x\"" }]
    ∧ scan_code astChained srcChained "app.py" ≠ [] := by
  refine ⟨by decide, by decide⟩

/-- C7 (amended): the secret detector checks every target of an assignment
statement: each target that is a simple identifier containing a suspicious
substring, with a string-literal assigned value, yields one High finding — so
a single-target secret assignment yields exactly one High finding and a
chained assignment with two secret-like targets yields two. -/
theorem claim7_per_target_amended :
    scan_code astSecret srcSecret "app.py" = [secretFinding]
    ∧ (scan_code astSecret srcSecret "app.py").length = 1
    ∧ scan_code astChained srcChained "app.py"
      = [{ filename := "app.py", line := 1,
           issue := "Possible Hardcoded Secret: 'api_key'", severity := "High",
           code := "api_key = auth_token = \"x\"" },
         { filename := "app.py", line := 1,
           issue := "Possible Hardcoded Secret: 'auth_token'", severity := "High",
           code := "api_key = auth_token = \"x\"" }] := by
  refine ⟨by decide, by decide, by decide⟩

/-- C8: findings come in document order of the tree — for any two top-level
statements the findings of the first precede those of the second, and in the
concrete unit with a secret assignment on line 2 and an `eval` call on line
5, the secret finding (line 2) precedes the dangerous-call finding (line 5). -/
theorem claim8_document_order :
    (∀ (ctx : VisitorCtx) (s1 s2 : PyStmt) (issues : List Finding),
      visitStmtList ctx issues (.cons s1 (.cons s2 .nil))
        = issues ++ visitStmt ctx [] s1 ++ visitStmt ctx [] s2)
    ∧ scan_code astOrder srcOrder "app.py"
      = [{ filename := "app.py", line := 2,
           issue := "Possible Hardcoded Secret: 'api_key'", severity := "High",
           code := "api_key = \"abc123\"" },
         { filename := "app.py", line := 5,
           issue := "Use of Dangerous Function (eval)", severity := "High",
           code := "eval(data)" }] := by
  constructor
  · intro ctx s1 s2 issues
    simp only [visitStmtList]
    rw [visitStmt_append ctx s2 (visitStmt ctx issues s1),
        visitStmt_append ctx s1 issues]
  · decide

/-- C9: `scan_code` is deterministic — equal inputs give equal finding lists,
and the visitor carries no state across runs: starting it from any prior
issue list just prepends that list to the findings of a fresh run, so each
scan (which starts from the empty list) is a function of its inputs alone. -/
theorem claim9_deterministic :
    (∀ (p p' : ParseResult) (c c' fn fn' : String),
      p = p' → c = c' → fn = fn' → scan_code p c fn = scan_code p' c' fn')
    ∧ (∀ (ctx : VisitorCtx) (prior : List Finding) (body : PyStmtList),
      visitStmtList ctx prior body = prior ++ visitStmtList ctx [] body) := by
  constructor
  · intro p p' c c' fn fn' hp hc hf
    subst hp
    subst hc
    subst hf
    rfl
  · intro ctx prior body
    exact visitStmtList_append ctx body prior

/-- C9 witness: the theorem applied at the secret-assignment input, with the
three equality hypotheses discharged by `rfl`. -/
theorem claim9_deterministic_witness :
    scan_code astSecret srcSecret "app.py" = scan_code astSecret srcSecret "app.py" :=
  claim9_deterministic.1 astSecret astSecret srcSecret srcSecret
    "app.py" "app.py" rfl rfl rfl

/-- C10: the annotated assignment `api_key: str = "abc123"` parses to an
`ast.AnnAssign` node, which the secret detector (registered only for
`ast.Assign`) never inspects, so the scan returns zero findings. -/
theorem claim10_annotated_assignment_unflagged :
    scan_code astAnn srcAnn "app.py" = [] := by
  decide

end GitSec
